import Mathlib

/-!
Verification of the admission-control and SQL-safety core of the
natural-language-to-SQL backend (backend/main.py).

The request pipeline (the body of the process_query endpoint) is embedded as a
pure function over an explicit tracker state (quota counters and the query
history log) and an environment describing the outcomes of the three external
collaborators (Query Generator, SQL Safety Validator, Query Executor), each of
which may either return a value or raise an exception (modelled as Except).
The pipeline additionally records which collaborators it consulted, so that
"no external call is made" claims are expressible.

String manipulation mirrors the Python operations used by the source
(str.replace replaces every occurrence; str.strip trims whitespace;
str.startswith tests a literal prefix).
-/

namespace NlToSql

/-- The single-quote character used as the SQL string-literal delimiter. -/
def sqlQuote : Char := Char.ofNat 39

/-- Whitespace as Python str.strip treats it (space, tab, newline, CR, VT, FF). -/
def isSpaceChar (c : Char) : Bool :=
  c = ' ' || c = '\t' || c = '\n' || c = '\r' || c = Char.ofNat 11 || c = Char.ofNat 12

/-- Drop leading and trailing whitespace from a character list. -/
def trimChars (l : List Char) : List Char :=
  ((l.dropWhile isSpaceChar).reverse.dropWhile isSpaceChar).reverse

/-- Python str.strip(): remove leading and trailing whitespace. -/
def pyStrip (s : String) : String := String.mk (trimChars s.toList)

/-- Python str.startswith(pre). -/
def pyStartsWith (s pre : String) : Bool := pre.toList.isPrefixOf s.toList

/-- Helper for pyReplace: fuelled scan replacing every non-overlapping
occurrence of pat, left to right. The fuel starts at the length of the list,
which suffices because every step consumes at least one character. -/
def pyReplaceAux (pat rep : List Char) : Nat → List Char → List Char
  | 0, l => l
  | _ + 1, [] => []
  | fuel + 1, c :: rest =>
    if pat.isPrefixOf (c :: rest) then
      rep ++ pyReplaceAux pat rep fuel ((c :: rest).drop pat.length)
    else
      c :: pyReplaceAux pat rep fuel rest

/-- Python str.replace(pat, rep): replace every non-overlapping occurrence of
pat by rep, scanning left to right (not only a leading occurrence). -/
def pyReplace (s pat rep : String) : String :=
  if pat.toList = [] then s
  else String.mk (pyReplaceAux pat.toList rep.toList s.toList.length s.toList)

/-- Python str.upper() restricted to ASCII letters, as used on SQL text. -/
def pyUpper (s : String) : String := String.mk (s.toList.map Char.toUpper)

namespace SQLValidator

/-- Modelled from the spec: scanner modes for the comment-stripping pass of the
SQL Safety Validator (services/sql_validator.py is not under src/; the
validator is modelled from spec section 4.3). -/
inductive ScanMode
  | normal
  | inString
  | lineComment
  | blockComment
deriving DecidableEq, Repr

/-- Modelled from the spec: comment stripping for the SQL Safety Validator.
Line comments (double dash to end of line) and block comments are removed
before keyword scanning; the contents of single-quoted string literals are
left untouched (a doubled quote inside a literal is the escaped quote). -/
def stripCommentsAux : ScanMode → List Char → List Char
  | _, [] => []
  | ScanMode.normal, c1 :: c2 :: rest =>
    if c1 = '-' && c2 = '-' then stripCommentsAux ScanMode.lineComment rest
    else if c1 = '/' && c2 = '*' then stripCommentsAux ScanMode.blockComment rest
    else if c1 = sqlQuote then c1 :: stripCommentsAux ScanMode.inString (c2 :: rest)
    else c1 :: stripCommentsAux ScanMode.normal (c2 :: rest)
  | ScanMode.normal, [c1] => [c1]
  | ScanMode.inString, c1 :: c2 :: rest =>
    if c1 = sqlQuote && c2 = sqlQuote then c1 :: c2 :: stripCommentsAux ScanMode.inString rest
    else if c1 = sqlQuote then c1 :: stripCommentsAux ScanMode.normal (c2 :: rest)
    else c1 :: stripCommentsAux ScanMode.inString (c2 :: rest)
  | ScanMode.inString, [c1] => [c1]
  | ScanMode.lineComment, c1 :: rest =>
    if c1 = '\n' then c1 :: stripCommentsAux ScanMode.normal rest
    else stripCommentsAux ScanMode.lineComment rest
  | ScanMode.blockComment, c1 :: c2 :: rest =>
    if c1 = '*' && c2 = '/' then ' ' :: stripCommentsAux ScanMode.normal rest
    else stripCommentsAux ScanMode.blockComment (c2 :: rest)
  | ScanMode.blockComment, [_] => []

/-- Modelled from the spec: strip SQL comments from a query string. -/
def stripComments (s : String) : String :=
  String.mk (stripCommentsAux ScanMode.normal s.toList)

/-- Modelled from the spec: split a (comment-stripped) query on statement
separators (semicolons) that occur outside single-quoted string literals. -/
def splitStmtsAux : Bool → List Char → List Char → List String
  | _, acc, [] => [String.mk acc.reverse]
  | false, acc, c :: rest =>
    if c = ';' then String.mk acc.reverse :: splitStmtsAux false [] rest
    else if c = sqlQuote then splitStmtsAux true (c :: acc) rest
    else splitStmtsAux false (c :: acc) rest
  | true, acc, c :: rest =>
    if c = sqlQuote then splitStmtsAux false (c :: acc) rest
    else splitStmtsAux true (c :: acc) rest

/-- Modelled from the spec: the statements of a query string. -/
def splitStatements (s : String) : List String := splitStmtsAux false [] s.toList

/-- Modelled from the spec: the non-empty statements of a query, after comment
stripping, splitting on top-level semicolons, and trimming whitespace. -/
def statements (sql : String) : List String :=
  ((splitStatements (stripComments sql)).map pyStrip).filter (fun s => !s.toList.isEmpty)

/-- Modelled from the spec: blank out the contents of single-quoted string
literals so that keywords inside literals are not scanned. -/
def removeLiteralsAux : Bool → List Char → List Char
  | _, [] => []
  | false, c :: rest =>
    if c = sqlQuote then ' ' :: removeLiteralsAux true rest
    else c :: removeLiteralsAux false rest
  | true, c :: rest =>
    if c = sqlQuote then removeLiteralsAux false rest
    else removeLiteralsAux true rest

/-- Modelled from the spec: blank out string-literal contents of a statement. -/
def removeLiterals (s : String) : String := String.mk (removeLiteralsAux false s.toList)

/-- A character that can be part of a SQL word token. -/
def isWordChar (c : Char) : Bool := c.isAlpha || c.isDigit || c = '_'

/-- Modelled from the spec: cut a statement into word tokens (maximal runs of
letters, digits and underscores). -/
def tokensAux : List Char → List Char → List String
  | acc, [] => if acc.isEmpty then [] else [String.mk acc.reverse]
  | acc, c :: rest =>
    if isWordChar c then tokensAux (c :: acc) rest
    else if acc.isEmpty then tokensAux [] rest
    else String.mk acc.reverse :: tokensAux [] rest

/-- Modelled from the spec: the word tokens of a statement. -/
def tokens (s : String) : List String := tokensAux [] s.toList

/-- Modelled from the spec: the data-definition and data-modification keywords
the validator rejects (spec section 4.3). -/
def forbiddenKeywords : List String :=
  ["INSERT", "UPDATE", "DELETE", "DROP", "ALTER", "CREATE", "TRUNCATE", "ATTACH", "COPY", "PRAGMA"]

/-- Modelled from the spec: the first forbidden keyword occurring in the
statement outside string literals (case-insensitive), if any. -/
def findForbidden (stmt : String) : Option String :=
  ((tokens (removeLiterals stmt)).map pyUpper).find? (fun t => forbiddenKeywords.contains t)

/-- Rejection reason for stacked (multi-statement) queries. -/
def multipleStatementsReason : String := "Multiple SQL statements are not allowed"

/-- Rejection reason for statements that are not a single SELECT. -/
def notSelectReason : String := "Only a single SELECT statement is allowed"

/-- Rejection reason for a forbidden data-definition or data-modification keyword. -/
def forbiddenKeywordReason (kw : String) : String :=
  "Query contains forbidden keyword: " ++ kw

/-- Modelled from the spec: SQLValidator.validate (services/sql_validator.py is
not under src/). Spec section 4.3: strip comments; reject stacked
multi-statement queries (structural check first); reject any statement with a
data-definition or data-modification keyword outside string literals,
case-insensitively; reject statements that are not a single read-only SELECT.
The schema allow-list check of spec section 4.3 is outside the fragment the
claims exercise and is not modelled. Returns (is_safe, reason). -/
def validate (sql : String) : Bool × String :=
  match statements sql with
  | [] => (false, notSelectReason)
  | [stmt] =>
    match findForbidden stmt with
    | some kw => (false, forbiddenKeywordReason kw)
    | none =>
      if pyStartsWith (pyUpper stmt) "SELECT" then (true, "")
      else (false, notSelectReason)
  | _ => (false, multipleStatementsReason)

end SQLValidator

/-- A history record, as passed to IPTracker.record_query_history. -/
structure QueryAttempt where
  client_ip : String
  natural_language_query : String
  generated_sql : String
  succeeded : Bool
deriving DecidableEq, Repr

/-- The cross-request state owned by the tracker: the global daily counter, the
per-IP daily counters, and the append-only query history log. -/
structure TrackerState where
  globalCount : Nat
  ipCounts : List (String × Nat)
  history : List QueryAttempt
deriving DecidableEq, Repr

/-- The configured daily ceilings (GLOBAL_DAILY_LIMIT, PER_IP_DAILY_LIMIT). -/
structure Config where
  globalLimit : Nat
  ipLimit : Nat
deriving DecidableEq, Repr

/-- Look up the counter of an IP (0 if absent). -/
def getCount (ip : String) : List (String × Nat) → Nat
  | [] => 0
  | (k, v) :: rest => if k = ip then v else getCount ip rest

/-- Increment the counter of an IP (creating it at 1 if absent). -/
def bumpCount (ip : String) : List (String × Nat) → List (String × Nat)
  | [] => [(ip, 1)]
  | (k, v) :: rest => if k = ip then (k, v + 1) :: rest else (k, v) :: bumpCount ip rest

namespace IPTracker

/-- Modelled from the spec: IPTracker.get_global_remaining_requests
(services/ip_tracker.py is not under src/). Spec section 4.2:
remaining_global = max(0, GLOBAL_DAILY_LIMIT - count); Nat subtraction
truncates at 0, giving the max. -/
def get_global_remaining_requests (cfg : Config) (st : TrackerState) : Nat :=
  cfg.globalLimit - st.globalCount

/-- Modelled from the spec: IPTracker.get_ip_remaining_requests
(services/ip_tracker.py is not under src/). Spec section 4.2:
remaining_ip = max(0, PER_IP_DAILY_LIMIT - count). -/
def get_ip_remaining_requests (cfg : Config) (st : TrackerState) (ip : String) : Nat :=
  cfg.ipLimit - getCount ip st.ipCounts

/-- Modelled from the spec: IPTracker.check_ip_limit (services/ip_tracker.py is
not under src/). True when the per-IP remaining quota is positive; per spec
section 4.2 the check itself does not increment. -/
def check_ip_limit (cfg : Config) (st : TrackerState) (ip : String) : Bool :=
  getCount ip st.ipCounts < cfg.ipLimit

/-- Modelled from the spec: IPTracker.record_query_history
(services/ip_tracker.py is not under src/). Appends one history record; per
spec section 4.2 the single quota increment for the attempt (per-IP and
global) happens when the pipeline commits to recording a history entry. -/
def record_query_history (ip uq sql : String) (succeeded : Bool) (st : TrackerState) :
    TrackerState :=
  { globalCount := st.globalCount + 1,
    ipCounts := bumpCount ip st.ipCounts,
    history := st.history ++
      [{ client_ip := ip, natural_language_query := uq,
         generated_sql := sql, succeeded := succeeded }] }

end IPTracker

/-- The external collaborators a request may consult. -/
inductive ExtCall
  | generator
  | validator
  | executor
deriving DecidableEq, Repr

/-- The behaviour of the external collaborators for one request: each call
either returns a value or raises an exception carrying a message. The
generator result is the sql_query string extracted from its JSON reply; any
failure of the call, of JSON decoding or of key lookup is the error case. -/
structure Collab where
  generatorResult : Except String String
  validatorResult : Except String (Bool × String)
  executorResult : Except String (List String)
deriving Repr

/-- The JSON object returned to the caller; a field is none when the source
returns a dict without that key. The executor result rows are kept opaque
(serialized row strings). -/
structure Response where
  sql_query : Option String
  result : Option (List String)
  error : Option String
  remaining_requests : Option (Nat × Nat)
  details : Option String
deriving DecidableEq, Repr

/-- A response dict carrying only an error field. -/
def errorOnly (msg : String) : Response :=
  { sql_query := none, result := none, error := some msg,
    remaining_requests := none, details := none }

/-- Step 3 rejection message (global daily limit). -/
def globalLimitMessage : String :=
  "The service has reached its daily request limit. Please try again tomorrow."

/-- Step 4 rejection message (per-IP daily limit), showing the remaining count. -/
def ipLimitMessage (n : Nat) : String :=
  "You have exceeded your daily limit. You have " ++ toString n ++
    " requests remaining for today."

/-- Step 5 message when the generator call raises internally. -/
def generationFailureMessage : String := "Try again later. The server is having trouble."

/-- Step 6.5 message when validation rejects the query. -/
def unsafeQueryMessage (reason : String) : String :=
  "I don\x27t answer unsafe query: " ++ reason

/-- Step 7 message when execution fails: fixed, independent of the exception. -/
def executionFailureMessage : String :=
  "Oops! Something went wrong while trying to get your answer."

/-- Catch-all message of the endpoint-level exception handler. -/
def catchAllMessage : String :=
  "Invalid request format. Please ensure you\x27re sending the correct form data."

/-- The remaining_requests object: (user_remaining, global_remaining). -/
def remainingFigures (cfg : Config) (st : TrackerState) (ip : String) : Nat × Nat :=
  (IPTracker.get_ip_remaining_requests cfg st ip,
   IPTracker.get_global_remaining_requests cfg st)

/-- The outcome of one request: the response dict, the tracker state after the
request, and the external collaborators consulted, in order. -/
structure Outcome where
  response : Response
  state : TrackerState
  calls : List ExtCall
deriving DecidableEq, Repr

/-- Prefix the call trace of an outcome with earlier calls. -/
def prependCalls (cs : List ExtCall) (o : Outcome) : Outcome :=
  { o with calls := cs ++ o.calls }

/-- Step 7 of process_query: execute the query. On success, record a
successful history entry and return the rows; on failure, record a failed
history entry and return the fixed generic execution-failure message (the
exception text goes only to logs). In both branches the remaining figures are
computed after the history record. -/
def executeStage (cfg : Config) (client_ip user_query sql_query : String)
    (execResult : Except String (List String)) (st : TrackerState) : Outcome :=
  match execResult with
  | Except.ok rows =>
    let st1 := IPTracker.record_query_history client_ip user_query sql_query true st
    { response := { sql_query := some sql_query, result := some rows, error := none,
                    remaining_requests := some (remainingFigures cfg st1 client_ip),
                    details := none },
      state := st1, calls := [ExtCall.executor] }
  | Except.error _ =>
    let st1 := IPTracker.record_query_history client_ip user_query sql_query false st
    { response := { sql_query := some sql_query, result := none,
                    error := some executionFailureMessage,
                    remaining_requests := some (remainingFigures cfg st1 client_ip),
                    details := none },
      state := st1, calls := [ExtCall.executor] }

/-- The body of the process_query endpoint (backend/main.py, steps 3 to 7).
Step 3: if the global remaining quota is not positive, return a dict with only
the global-limit error. Step 4: if the per-IP check fails, return a dict with
only the per-IP error (showing the remaining count). Step 5: consult the
generator; if the call raises, return the generic generation-failure message
plus remaining figures (no sql_query, no history record). Step 6: if the
generated text starts with the ERROR: marker, record a failed history entry
and return the text with every occurrence of the marker removed and stripped.
Step 6.5: consult the validator; on a negative verdict, record a failed
history entry and return its reason; if the validator call raises, fall
through to execution. Step 7: execute. -/
def process_query (cfg : Config) (client_ip user_query : String) (collab : Collab)
    (st : TrackerState) : Outcome :=
  if IPTracker.get_global_remaining_requests cfg st ≤ 0 then
    { response := errorOnly globalLimitMessage, state := st, calls := [] }
  else if !(IPTracker.check_ip_limit cfg st client_ip) then
    { response := errorOnly (ipLimitMessage (IPTracker.get_ip_remaining_requests cfg st client_ip)),
      state := st, calls := [] }
  else
    match collab.generatorResult with
    | Except.error _ =>
      { response := { sql_query := none, result := none,
                      error := some generationFailureMessage,
                      remaining_requests := some (remainingFigures cfg st client_ip),
                      details := none },
        state := st, calls := [ExtCall.generator] }
    | Except.ok sql_query =>
      if pyStartsWith sql_query "ERROR:" then
        let st1 := IPTracker.record_query_history client_ip user_query sql_query false st
        { response := { sql_query := some sql_query, result := none,
                        error := some (pyStrip (pyReplace sql_query "ERROR:" "")),
                        remaining_requests := some (remainingFigures cfg st1 client_ip),
                        details := none },
          state := st1, calls := [ExtCall.generator] }
      else
        match collab.validatorResult with
        | Except.ok (is_valid, error_message) =>
          if !is_valid then
            let st1 := IPTracker.record_query_history client_ip user_query sql_query false st
            { response := { sql_query := some sql_query, result := none,
                            error := some (unsafeQueryMessage error_message),
                            remaining_requests := some (remainingFigures cfg st1 client_ip),
                            details := none },
              state := st1, calls := [ExtCall.generator, ExtCall.validator] }
          else
            prependCalls [ExtCall.generator, ExtCall.validator]
              (executeStage cfg client_ip user_query sql_query collab.executorResult st)
        | Except.error _ =>
          prependCalls [ExtCall.generator, ExtCall.validator]
            (executeStage cfg client_ip user_query sql_query collab.executorResult st)

/-- The endpoint-level try/except of process_query: a body outcome is returned
as is; an exception escaping the body is caught and turned into the catch-all
response whose details field carries str(e) verbatim. -/
def process_query_endpoint (body : Except String Outcome) (st : TrackerState) : Outcome :=
  match body with
  | Except.ok o => o
  | Except.error e =>
    { response := { sql_query := none, result := none, error := some catchAllMessage,
                    remaining_requests := none, details := some e },
      state := st, calls := [] }

/-- The reason computation as the spec words it: only the leading ERROR:
prefix removed, then stripped (stated from the spec, for comparison with the
replace-all behaviour of the source). -/
def specLeadingPrefixStripped (s : String) : String :=
  if pyStartsWith s "ERROR:" then pyStrip (String.mk (s.toList.drop 6))
  else pyStrip s

/-! Concrete fixtures used to instantiate the theorems. -/

/-- A fresh tracker state (no counts, empty history). -/
def st0 : TrackerState := { globalCount := 0, ipCounts := [], history := [] }

/-- A configuration with room in both quotas. -/
def cfgA : Config := { globalLimit := 100, ipLimit := 5 }

/-- Collaborators that all succeed. -/
def collabStub : Collab :=
  { generatorResult := Except.ok "SELECT 1",
    validatorResult := Except.ok (true, ""),
    executorResult := Except.ok ["row"] }

/-- Collaborators whose generator call raises internally. -/
def collabGenFault : Collab :=
  { collabStub with generatorResult := Except.error "boom" }

/-- Collaborators whose generator returns the explicit ERROR: token. -/
def collabErrToken : Collab :=
  { collabStub with generatorResult := Except.ok "ERROR: no safe SQL" }

/-- Collaborators whose generator output contains the marker twice. -/
def collabErrTwice : Collab :=
  { collabStub with generatorResult := Except.ok "ERROR: foo ERROR: bar" }

/-- Collaborators whose validator call raises internally. -/
def collabValFault : Collab :=
  { collabStub with validatorResult := Except.error "validator crashed" }

/-! Helper lemmas. -/

theorem getCount_bumpCount (ip : String) (l : List (String × Nat)) :
    getCount ip (bumpCount ip l) = getCount ip l + 1 := by
  induction l with
  | nil => simp [getCount, bumpCount]
  | cons hd tl ih =>
    obtain ⟨k, v⟩ := hd
    by_cases hk : k = ip <;> simp [getCount, bumpCount, hk, ih]

theorem executeStage_calls (cfg : Config) (ip uq sql : String)
    (r : Except String (List String)) (st : TrackerState) :
    (executeStage cfg ip uq sql r st).calls = [ExtCall.executor] := by
  cases r <;> rfl

/-- C3: when both the global and the per-IP remaining quotas are 0, the
pipeline returns the global-exhaustion rejection (the GlobalLimitReached
message), never the per-IP one: the global check is evaluated first. -/
theorem C3_global_limit_precedence (cfg : Config) (ip uq : String) (c : Collab)
    (st : TrackerState)
    (hg : IPTracker.get_global_remaining_requests cfg st = 0)
    (hip : IPTracker.get_ip_remaining_requests cfg st ip = 0) :
    (process_query cfg ip uq c st).response = errorOnly globalLimitMessage ∧
    (process_query cfg ip uq c st).response.error
      ≠ some (ipLimitMessage (IPTracker.get_ip_remaining_requests cfg st ip)) := by
  constructor
  · simp [process_query, hg]
  · rw [hip]
    simp [process_query, hg]
    decide

/-- Witness for C3 at a concretely exhausted configuration. -/
theorem C3_witness :
    (process_query { globalLimit := 0, ipLimit := 0 } "1.2.3.4" "q" collabStub st0).response
      = errorOnly globalLimitMessage :=
  (C3_global_limit_precedence { globalLimit := 0, ipLimit := 0 } "1.2.3.4" "q" collabStub st0
    (by decide) (by decide)).1

/-- C9: the modelled validator rejects every stacked multi-statement query
with the multiple-statements reason, rejects every single statement containing
a forbidden data-definition or data-modification keyword outside string
literals (case-insensitively, after comment stripping), rejects every single
statement that is not a SELECT, and a keyword occurring only inside a string
literal does not by itself cause rejection (the spec test vectors hold). -/
theorem C9_validator_policy :
    (∀ sql, 2 ≤ (SQLValidator.statements sql).length →
      SQLValidator.validate sql = (false, SQLValidator.multipleStatementsReason)) ∧
    (∀ sql stmt kw, SQLValidator.statements sql = [stmt] →
      SQLValidator.findForbidden stmt = some kw →
      SQLValidator.validate sql = (false, SQLValidator.forbiddenKeywordReason kw)) ∧
    (∀ sql stmt, SQLValidator.statements sql = [stmt] →
      SQLValidator.findForbidden stmt = none →
      pyStartsWith (pyUpper stmt) "SELECT" = false →
      SQLValidator.validate sql = (false, SQLValidator.notSelectReason)) ∧
    SQLValidator.validate "SELECT * FROM matches; DROP TABLE matches"
      = (false, SQLValidator.multipleStatementsReason) ∧
    SQLValidator.validate "DELETE FROM matches"
      = (false, SQLValidator.forbiddenKeywordReason "DELETE") ∧
    SQLValidator.validate "SELECT \x27DROP TABLE\x27 AS note" = (true, "") := by
  refine ⟨?_, ?_, ?_, by decide, by decide, by decide⟩
  · intro sql h
    rcases hs : SQLValidator.statements sql with _ | ⟨a, _ | ⟨b, rest⟩⟩
    · rw [hs] at h; simp at h
    · rw [hs] at h; simp at h
    · unfold SQLValidator.validate
      rw [hs]
  · intro sql stmt kw hs hf
    unfold SQLValidator.validate
    rw [hs]
    simp [hf]
  · intro sql stmt hs hf hsel
    unfold SQLValidator.validate
    rw [hs]
    simp [hf, hsel]

/-- Witness for C9: a concrete stacked query is rejected through the
multi-statement clause of the policy theorem. -/
theorem C9_witness :
    SQLValidator.validate "SELECT 1; SELECT 2"
      = (false, SQLValidator.multipleStatementsReason) :=
  C9_validator_policy.1 "SELECT 1; SELECT 2" (by decide)

/-- C10: when an exception escapes the pipeline body, the endpoint catch-all
handler returns the fixed catch-all error together with a details field
carrying the raw exception text str(e). -/
theorem C10_catch_all_exposes_exception (e : String) (st : TrackerState) :
    (process_query_endpoint (Except.error e) st).response.details = some e ∧
    (process_query_endpoint (Except.error e) st).response.error = some catchAllMessage :=
  ⟨rfl, rfl⟩

/-- C1 counterexample: with a validator internal fault on an admitted request,
the pipeline calls the Query Executor and returns a success response rather
than an error, so a validator fault is not treated as a validation
rejection. -/
theorem C1_counterexample :
    ExtCall.executor ∈ (process_query cfgA "1.2.3.4" "q" collabValFault st0).calls ∧
    (process_query cfgA "1.2.3.4" "q" collabValFault st0).response.error = none ∧
    (process_query cfgA "1.2.3.4" "q" collabValFault st0).response.result = some ["row"] := by
  decide

/-- C1 amended: a validator internal fault fails open, not closed: on an
admitted request whose generated query does not carry the ERROR: token, a
validator exception makes the pipeline fall through to the execution stage,
and the Query Executor is called. -/
theorem C1_validator_fault_fails_open (cfg : Config) (ip uq sql e : String)
    (c : Collab) (st : TrackerState)
    (hg : ¬ IPTracker.get_global_remaining_requests cfg st ≤ 0)
    (hip : IPTracker.check_ip_limit cfg st ip = true)
    (hgen : c.generatorResult = Except.ok sql)
    (hs : pyStartsWith sql "ERROR:" = false)
    (hv : c.validatorResult = Except.error e) :
    process_query cfg ip uq c st
      = prependCalls [ExtCall.generator, ExtCall.validator]
          (executeStage cfg ip uq sql c.executorResult st) ∧
    ExtCall.executor ∈ (process_query cfg ip uq c st).calls := by
  have h1 : process_query cfg ip uq c st
      = prependCalls [ExtCall.generator, ExtCall.validator]
          (executeStage cfg ip uq sql c.executorResult st) := by
    simp [process_query, hg, hip, hgen, hs, hv]
  refine ⟨h1, ?_⟩
  rw [h1]
  simp [prependCalls, executeStage_calls]

/-- Witness for C1 at a concrete faulting validator. -/
theorem C1_witness :
    process_query cfgA "1.2.3.4" "q" collabValFault st0
      = prependCalls [ExtCall.generator, ExtCall.validator]
          (executeStage cfgA "1.2.3.4" "q" "SELECT 1" collabValFault.executorResult st0) :=
  (C1_validator_fault_fails_open cfgA "1.2.3.4" "q" "SELECT 1" "validator crashed"
    collabValFault st0 (by decide) (by decide) rfl (by decide) rfl).1

/-- C5: on an admitted request whose generated text carries the explicit
ERROR: token, the pipeline records a failed history entry and returns the
error, consulting neither the SQL Safety Validator nor the Query Executor. -/
theorem C5_error_token_short_circuit (cfg : Config) (ip uq sql : String)
    (c : Collab) (st : TrackerState)
    (hg : ¬ IPTracker.get_global_remaining_requests cfg st ≤ 0)
    (hip : IPTracker.check_ip_limit cfg st ip = true)
    (hgen : c.generatorResult = Except.ok sql)
    (herr : pyStartsWith sql "ERROR:" = true) :
    (process_query cfg ip uq c st).calls = [ExtCall.generator] ∧
    ExtCall.validator ∉ (process_query cfg ip uq c st).calls ∧
    ExtCall.executor ∉ (process_query cfg ip uq c st).calls ∧
    (process_query cfg ip uq c st).state.history
      = st.history ++ [{ client_ip := ip, natural_language_query := uq,
                         generated_sql := sql, succeeded := false }] ∧
    (process_query cfg ip uq c st).response.error
      = some (pyStrip (pyReplace sql "ERROR:" "")) := by
  refine ⟨?_, ?_, ?_, ?_, ?_⟩ <;>
    simp [process_query, hg, hip, hgen, herr, IPTracker.record_query_history]

/-- Witness for C5 at a concrete ERROR-token generation. -/
theorem C5_witness :
    (process_query cfgA "1.2.3.4" "q" collabErrToken st0).calls = [ExtCall.generator] :=
  (C5_error_token_short_circuit cfgA "1.2.3.4" "q" "ERROR: no safe SQL" collabErrToken st0
    (by decide) (by decide) rfl (by decide)).1

/-- C6 counterexample: for a generator output containing the marker twice, the
returned reason removes every occurrence of ERROR:, not only the leading
prefix, so the remainder is not preserved verbatim. -/
theorem C6_counterexample :
    (process_query cfgA "9.9.9.9" "q" collabErrTwice st0).response.error = some "foo  bar" ∧
    specLeadingPrefixStripped "ERROR: foo ERROR: bar" = "foo ERROR: bar" ∧
    ("foo  bar" : String) ≠ "foo ERROR: bar" := by
  decide

/-- C6 amended: the reason returned for an ERROR-token generation equals the
generator string with every occurrence of the substring ERROR: removed and
the result whitespace-stripped (which coincides with prefix removal only when
the marker occurs once). -/
theorem C6_error_reason_replaces_all (cfg : Config) (ip uq sql : String)
    (c : Collab) (st : TrackerState)
    (hg : ¬ IPTracker.get_global_remaining_requests cfg st ≤ 0)
    (hip : IPTracker.check_ip_limit cfg st ip = true)
    (hgen : c.generatorResult = Except.ok sql)
    (herr : pyStartsWith sql "ERROR:" = true) :
    (process_query cfg ip uq c st).response.error
      = some (pyStrip (pyReplace sql "ERROR:" "")) := by
  simp [process_query, hg, hip, hgen, herr]

/-- Witness for C6 at the double-marker generation. -/
theorem C6_witness :
    (process_query cfgA "8.8.8.8" "q" collabErrTwice st0).response.error
      = some (pyStrip (pyReplace "ERROR: foo ERROR: bar" "ERROR:" "")) :=
  C6_error_reason_replaces_all cfgA "8.8.8.8" "q" "ERROR: foo ERROR: bar" collabErrTwice st0
    (by decide) (by decide) rfl (by decide)

/-- C7: execution failures surface only the fixed generic message: two runs
differing solely in the executor exception text produce identical outcomes
(response, state and call trace). -/
theorem C7_execution_error_is_generic (cfg : Config) (ip uq e1 e2 : String)
    (c : Collab) (st : TrackerState) :
    process_query cfg ip uq { c with executorResult := Except.error e1 } st
      = process_query cfg ip uq { c with executorResult := Except.error e2 } st := by
  obtain ⟨g, v, x⟩ := c
  by_cases hg : IPTracker.get_global_remaining_requests cfg st ≤ 0
  · simp [process_query, hg]
  · cases hip : IPTracker.check_ip_limit cfg st ip
    · simp [process_query, hg, hip]
    · cases g with
      | error msg => simp [process_query, hg, hip]
      | ok sql =>
        cases hs : pyStartsWith sql "ERROR:"
        · cases v with
          | error ve => simp [process_query, hg, hip, hs, executeStage]
          | ok p =>
            obtain ⟨b, m⟩ := p
            cases b <;> simp [process_query, hg, hip, hs, executeStage]
        · simp [process_query, hg, hip, hs]

/-- C2 counterexample: an admission-rejected request (global quota exhausted)
returns the rejection but appends no entry to the history log, so not every
rejected attempt is recorded. -/
theorem C2_counterexample :
    (process_query { globalLimit := 0, ipLimit := 5 } "2.2.2.2" "q" collabStub st0).response.error
      = some globalLimitMessage ∧
    (process_query { globalLimit := 0, ipLimit := 5 } "2.2.2.2" "q" collabStub st0).state.history
      = [] := by
  decide

/-- C2 amended: history entries, tagged success/failure, are appended exactly
on the paths that reach the ERROR-token check or beyond: ERROR-token
generations, validation rejections, execution failures and successes each
append one correctly-tagged entry, while admission rejections and internal
generation exceptions append none. -/
theorem C2_history_logging :
    (∀ cfg ip uq (c : Collab) st, IPTracker.get_global_remaining_requests cfg st ≤ 0 →
      (process_query cfg ip uq c st).state.history = st.history) ∧
    (∀ cfg ip uq (c : Collab) st, IPTracker.check_ip_limit cfg st ip = false →
      (process_query cfg ip uq c st).state.history = st.history) ∧
    (∀ cfg ip uq e (c : Collab) st, c.generatorResult = Except.error e →
      (process_query cfg ip uq c st).state.history = st.history) ∧
    (∀ cfg ip uq sql (c : Collab) st,
      ¬ IPTracker.get_global_remaining_requests cfg st ≤ 0 →
      IPTracker.check_ip_limit cfg st ip = true →
      c.generatorResult = Except.ok sql →
      pyStartsWith sql "ERROR:" = true →
      (process_query cfg ip uq c st).state.history
        = st.history ++ [{ client_ip := ip, natural_language_query := uq,
                           generated_sql := sql, succeeded := false }]) ∧
    (∀ cfg ip uq sql m (c : Collab) st,
      ¬ IPTracker.get_global_remaining_requests cfg st ≤ 0 →
      IPTracker.check_ip_limit cfg st ip = true →
      c.generatorResult = Except.ok sql →
      pyStartsWith sql "ERROR:" = false →
      c.validatorResult = Except.ok (false, m) →
      (process_query cfg ip uq c st).state.history
        = st.history ++ [{ client_ip := ip, natural_language_query := uq,
                           generated_sql := sql, succeeded := false }]) ∧
    (∀ cfg ip uq sql m xe (c : Collab) st,
      ¬ IPTracker.get_global_remaining_requests cfg st ≤ 0 →
      IPTracker.check_ip_limit cfg st ip = true →
      c.generatorResult = Except.ok sql →
      pyStartsWith sql "ERROR:" = false →
      (c.validatorResult = Except.ok (true, m) ∨ c.validatorResult = Except.error m) →
      c.executorResult = Except.error xe →
      (process_query cfg ip uq c st).state.history
        = st.history ++ [{ client_ip := ip, natural_language_query := uq,
                           generated_sql := sql, succeeded := false }]) ∧
    (∀ cfg ip uq sql m rows (c : Collab) st,
      ¬ IPTracker.get_global_remaining_requests cfg st ≤ 0 →
      IPTracker.check_ip_limit cfg st ip = true →
      c.generatorResult = Except.ok sql →
      pyStartsWith sql "ERROR:" = false →
      (c.validatorResult = Except.ok (true, m) ∨ c.validatorResult = Except.error m) →
      c.executorResult = Except.ok rows →
      (process_query cfg ip uq c st).state.history
        = st.history ++ [{ client_ip := ip, natural_language_query := uq,
                           generated_sql := sql, succeeded := true }]) := by
  refine ⟨?_, ?_, ?_, ?_, ?_, ?_, ?_⟩
  · intro cfg ip uq c st hg
    simp [process_query, hg]
  · intro cfg ip uq c st hip
    by_cases hg : IPTracker.get_global_remaining_requests cfg st ≤ 0 <;>
      simp [process_query, hg, hip]
  · intro cfg ip uq e c st hgen
    by_cases hg : IPTracker.get_global_remaining_requests cfg st ≤ 0
    · simp [process_query, hg]
    · cases hip : IPTracker.check_ip_limit cfg st ip <;>
        simp [process_query, hg, hip, hgen]
  · intro cfg ip uq sql c st hg hip hgen herr
    simp [process_query, hg, hip, hgen, herr, IPTracker.record_query_history]
  · intro cfg ip uq sql m c st hg hip hgen hs hv
    simp [process_query, hg, hip, hgen, hs, hv, IPTracker.record_query_history]
  · intro cfg ip uq sql m xe c st hg hip hgen hs hv hx
    rcases hv with hv | hv <;>
      simp [process_query, hg, hip, hgen, hs, hv, hx, executeStage, prependCalls,
        IPTracker.record_query_history]
  · intro cfg ip uq sql m rows c st hg hip hgen hs hv hx
    rcases hv with hv | hv <;>
      simp [process_query, hg, hip, hgen, hs, hv, hx, executeStage, prependCalls,
        IPTracker.record_query_history]

/-- Witness for C2: a concrete global rejection appends no history entry. -/
theorem C2_witness :
    (process_query { globalLimit := 0, ipLimit := 5 } "2.2.2.2" "q2" collabStub st0).state.history
      = st0.history :=
  C2_history_logging.1 { globalLimit := 0, ipLimit := 5 } "2.2.2.2" "q2" collabStub st0
    (by decide)

/-- C4 counterexample: an admitted request whose generator call raises
internally consumes no quota at all (the state is unchanged), contradicting
that every admitted request consumes exactly one unit per scope. -/
theorem C4_counterexample :
    ¬ IPTracker.get_global_remaining_requests cfgA st0 ≤ 0 ∧
    IPTracker.check_ip_limit cfgA st0 "3.3.3.3" = true ∧
    (process_query cfgA "3.3.3.3" "q" collabGenFault st0).calls = [ExtCall.generator] ∧
    (process_query cfgA "3.3.3.3" "q" collabGenFault st0).state = st0 := by
  decide

/-- C4 amended: a limiter-rejected request makes no external call and changes
no counter; an admitted request whose generator call raises internally also
consumes no quota; an admitted request whose generator returns a SQL string
(ERROR-token or not, and regardless of validation or execution outcome)
consumes exactly one global and one per-IP quota unit. -/
theorem C4_quota_consumption :
    (∀ cfg ip uq (c : Collab) st, IPTracker.get_global_remaining_requests cfg st ≤ 0 →
      (process_query cfg ip uq c st).state = st ∧
      (process_query cfg ip uq c st).calls = []) ∧
    (∀ cfg ip uq (c : Collab) st, IPTracker.check_ip_limit cfg st ip = false →
      (process_query cfg ip uq c st).state = st ∧
      (process_query cfg ip uq c st).calls = []) ∧
    (∀ cfg ip uq e (c : Collab) st,
      ¬ IPTracker.get_global_remaining_requests cfg st ≤ 0 →
      IPTracker.check_ip_limit cfg st ip = true →
      c.generatorResult = Except.error e →
      (process_query cfg ip uq c st).state = st) ∧
    (∀ cfg ip uq sql (c : Collab) st,
      ¬ IPTracker.get_global_remaining_requests cfg st ≤ 0 →
      IPTracker.check_ip_limit cfg st ip = true →
      c.generatorResult = Except.ok sql →
      (process_query cfg ip uq c st).state.globalCount = st.globalCount + 1 ∧
      getCount ip (process_query cfg ip uq c st).state.ipCounts
        = getCount ip st.ipCounts + 1) := by
  refine ⟨?_, ?_, ?_, ?_⟩
  · intro cfg ip uq c st hg
    constructor <;> simp [process_query, hg]
  · intro cfg ip uq c st hip
    by_cases hg : IPTracker.get_global_remaining_requests cfg st ≤ 0 <;>
      constructor <;> simp [process_query, hg, hip]
  · intro cfg ip uq e c st hg hip hgen
    simp [process_query, hg, hip, hgen]
  · intro cfg ip uq sql c st hg hip hgen
    cases hs : pyStartsWith sql "ERROR:"
    · rcases hv : c.validatorResult with ve | ⟨b, m⟩
      · cases hx : c.executorResult <;>
          simp [process_query, hg, hip, hgen, hs, hv, hx, executeStage, prependCalls,
            IPTracker.record_query_history, getCount_bumpCount]
      · cases b
        · simp [process_query, hg, hip, hgen, hs, hv,
            IPTracker.record_query_history, getCount_bumpCount]
        · cases hx : c.executorResult <;>
            simp [process_query, hg, hip, hgen, hs, hv, hx, executeStage, prependCalls,
              IPTracker.record_query_history, getCount_bumpCount]
    · simp [process_query, hg, hip, hgen, hs,
        IPTracker.record_query_history, getCount_bumpCount]

/-- Witness for C4: a concrete admitted ERROR-token request consumes exactly
one global and one per-IP unit. -/
theorem C4_witness :
    (process_query cfgA "1.2.3.4" "q" collabErrToken st0).state.globalCount
      = st0.globalCount + 1 ∧
    getCount "1.2.3.4" (process_query cfgA "1.2.3.4" "q" collabErrToken st0).state.ipCounts
      = getCount "1.2.3.4" st0.ipCounts + 1 :=
  C4_quota_consumption.2.2.2 cfgA "1.2.3.4" "q" "ERROR: no safe SQL" collabErrToken st0
    (by decide) (by decide) rfl

/-- C8 counterexample: an admission-rejected response carries only the error
field: it has neither a sql_query field nor a remaining_requests object. -/
theorem C8_counterexample :
    (process_query { globalLimit := 0, ipLimit := 5 } "4.4.4.4" "q" collabStub
        st0).response.remaining_requests = none ∧
    (process_query { globalLimit := 0, ipLimit := 5 } "4.4.4.4" "q" collabStub
        st0).response.sql_query = none ∧
    (process_query { globalLimit := 0, ipLimit := 5 } "4.4.4.4" "q" collabStub
        st0).response.error = some globalLimitMessage := by
  decide

/-- C8 amended: only the responses of requests that get past admission and
whose generator returns a SQL string contain sql_query, result-or-error and
remaining_requests; admission-rejected responses consist of the error field
alone, and generation-internal-failure responses carry error and
remaining_requests but no sql_query. -/
theorem C8_response_shape :
    (∀ cfg ip uq (c : Collab) st, IPTracker.get_global_remaining_requests cfg st ≤ 0 →
      (process_query cfg ip uq c st).response = errorOnly globalLimitMessage) ∧
    (∀ cfg ip uq (c : Collab) st,
      ¬ IPTracker.get_global_remaining_requests cfg st ≤ 0 →
      IPTracker.check_ip_limit cfg st ip = false →
      (process_query cfg ip uq c st).response
        = errorOnly (ipLimitMessage (IPTracker.get_ip_remaining_requests cfg st ip))) ∧
    (∀ cfg ip uq e (c : Collab) st,
      ¬ IPTracker.get_global_remaining_requests cfg st ≤ 0 →
      IPTracker.check_ip_limit cfg st ip = true →
      c.generatorResult = Except.error e →
      (process_query cfg ip uq c st).response.sql_query = none ∧
      (process_query cfg ip uq c st).response.error.isSome = true ∧
      (process_query cfg ip uq c st).response.remaining_requests.isSome = true) ∧
    (∀ cfg ip uq sql (c : Collab) st,
      ¬ IPTracker.get_global_remaining_requests cfg st ≤ 0 →
      IPTracker.check_ip_limit cfg st ip = true →
      c.generatorResult = Except.ok sql →
      (process_query cfg ip uq c st).response.sql_query = some sql ∧
      (process_query cfg ip uq c st).response.remaining_requests.isSome = true ∧
      ((process_query cfg ip uq c st).response.result.isSome = true ∨
        (process_query cfg ip uq c st).response.error.isSome = true)) := by
  refine ⟨?_, ?_, ?_, ?_⟩
  · intro cfg ip uq c st hg
    simp [process_query, hg]
  · intro cfg ip uq c st hg hip
    simp [process_query, hg, hip]
  · intro cfg ip uq e c st hg hip hgen
    simp [process_query, hg, hip, hgen]
  · intro cfg ip uq sql c st hg hip hgen
    cases hs : pyStartsWith sql "ERROR:"
    · rcases hv : c.validatorResult with ve | ⟨b, m⟩
      · cases hx : c.executorResult <;>
          simp [process_query, hg, hip, hgen, hs, hv, hx, executeStage, prependCalls]
      · cases b
        · simp [process_query, hg, hip, hgen, hs, hv]
        · cases hx : c.executorResult <;>
            simp [process_query, hg, hip, hgen, hs, hv, hx, executeStage, prependCalls]
    · simp [process_query, hg, hip, hgen, hs]

/-- Witness for C8: a concrete per-IP rejection consists of the error field
alone. -/
theorem C8_witness :
    (process_query { globalLimit := 100, ipLimit := 0 } "5.5.5.5" "q" collabStub st0).response
      = errorOnly (ipLimitMessage
          (IPTracker.get_ip_remaining_requests { globalLimit := 100, ipLimit := 0 } st0
            "5.5.5.5")) :=
  C8_response_shape.2.1 { globalLimit := 100, ipLimit := 0 } "5.5.5.5" "q" collabStub st0
    (by decide) (by decide)

end NlToSql
